import Mathlib

/-!
Shallow embedding of the REDCap error-check import pipeline
(`redcap_error_checks_import`): the storage-key parser and visit-type
derivation (`utils/utils.py`), the import-stats accumulator, the CSV
visitor and reader (`utils/visitor.py`), and the run orchestration
(`importer.py`).  Python strings are modelled as Lean `String`, operated
on through `List Char` helpers that mirror the Python string methods
used by the code; machine behaviour that the code relies on (truthiness
of `None`/empty values, exceptions) is made explicit.
-/

namespace RedcapEC

/-- Mirrors Python `needle in haystack` prefix matching via
`str.startswith`: true when `t` is a prefix of `s`. -/
def pyStartsWith (s t : String) : Bool :=
  t.data.isPrefixOf s.data

/-- Mirrors Python `str.endswith`: true when `t` is a suffix of `s`. -/
def pyEndsWith (s t : String) : Bool :=
  t.data.isSuffixOf s.data

/-- Character-list worker for `pySubstr`: does `t` occur as a contiguous
substring of `s`? -/
def listContainsSub (t : List Char) : List Char → Bool
  | [] => t.isEmpty
  | c :: s' => t.isPrefixOf (c :: s') || listContainsSub t s'

/-- Mirrors Python `t in s` on strings: substring containment. -/
def pySubstr (s t : String) : Bool :=
  listContainsSub t.data s.data

/-- Character-list worker for `pySplit`; mirrors Python
`str.split(sep)` for a one-character separator: the result is never
empty, and empty fields around consecutive separators are kept. -/
def splitCharList (sep : Char) : List Char → List (List Char)
  | [] => [[]]
  | c :: rest =>
    let r := splitCharList sep rest
    if c = sep then [] :: r
    else
      match r with
      | [] => [[c]]
      | h :: t => (c :: h) :: t

/-- Mirrors Python `s.split(sep)` for a one-character separator. -/
def pySplit (s : String) (sep : Char) : List String :=
  (splitCharList sep s.data).map (fun l => String.mk l)

/-- Mirrors Python `str.lower()` on the ASCII module names the code
deals with. -/
def pyLower (s : String) : String :=
  String.mk (s.data.map Char.toLower)

/-- Pydantic model `ErrorCheckKey` (`utils/utils.py`): the structured
identity parsed from an S3 key.  `packet` is `Optional[str]`. -/
structure ErrorCheckKey where
  full_path : String
  csv : String
  module : String
  form_ver : String
  filename : String
  form_name : String
  packet : Option String := none
deriving DecidableEq, Repr

/-- `ErrorCheckKey.create_from_key` (`utils/utils.py`).  The Python
raises on failure (`ValueError` for a bad namespace marker or segment
count, `IndexError` when the 5-segment filename has no second
underscore token, `AssertionError` when a 4-segment key's module is not
`ENROLL`); every raising path is modelled as `none`. -/
def ErrorCheckKey.create_from_key (key : String) : Option ErrorCheckKey :=
  let key_parts := pySplit key '/'
  -- `if key_parts[0] != 'CSV': raise ValueError(...)`; `split` never
  -- returns an empty list, so indexing 0 cannot itself fail.
  if key_parts.headD "" ≠ "CSV" then none
  else
    match key_parts with
    | [c, m, v, p, f] =>
      -- `form_name = filename.split('_')[1]` raises IndexError when the
      -- filename has fewer than two underscore-delimited tokens.
      match pySplit f '_' with
      | _ :: fn :: _ =>
        let form_name := if fn = "header" then pyLower m ++ "_header" else fn
        some { full_path := key, csv := c, module := m, form_ver := v,
               packet := some p, filename := f, form_name := form_name }
      | _ => none
    | [c, m, v, f] =>
      -- `assert module == 'ENROLL'`
      if m = "ENROLL" then
        some { full_path := key, csv := c, module := m, form_ver := v,
               filename := f, form_name := "enrl", packet := none }
      else none
    | _ => none

/-- `ErrorCheckKey.get_visit_type` (`utils/utils.py`).  `if not
self.packet` is Python truthiness: it holds for `None` and for the
empty string alike. -/
def ErrorCheckKey.get_visit_type (k : ErrorCheckKey) : Option String :=
  match k.packet with
  | none => none
  | some p =>
    if p = "" then none
    else if p = "I4" then some "i4vp"
    else if pyStartsWith p "F" then some "fvp"
    else some "ivp"

/-- `ErrorCheckImportStats` (`utils/utils.py`): the mutable run
accumulator, modelled as an explicitly threaded record. -/
structure ErrorCheckImportStats where
  total_records : Nat
  all_error_codes : List String
  failed_files : List String
deriving DecidableEq, Repr

/-- `ErrorCheckImportStats.__init__`. -/
def ErrorCheckImportStats.init : ErrorCheckImportStats :=
  { total_records := 0, all_error_codes := [], failed_files := [] }

/-- `ErrorCheckImportStats.add_to_total_records`. -/
def ErrorCheckImportStats.add_to_total_records
    (s : ErrorCheckImportStats) (num_records : Nat) : ErrorCheckImportStats :=
  { s with total_records := s.total_records + num_records }

/-- `ErrorCheckImportStats.add_failed_file`. -/
def ErrorCheckImportStats.add_failed_file
    (s : ErrorCheckImportStats) (failed_file : String) : ErrorCheckImportStats :=
  { s with failed_files := s.failed_files ++ [failed_file] }

/-- `ErrorCheckImportStats.add_error_codes`: collects the input codes
already present in the accumulated list (the loop runs before the
`extend`), then appends every input code.  Returns the duplicates and
the updated stats. -/
def ErrorCheckImportStats.add_error_codes
    (s : ErrorCheckImportStats) (error_codes : List String) :
    List String × ErrorCheckImportStats :=
  let duplicates := error_codes.filter (fun code => s.all_error_codes.contains code)
  (duplicates, { s with all_error_codes := s.all_error_codes ++ error_codes })

/-- Row produced by `csv.DictReader`: a finite mapping from field names
to string values, modelled as an association list (first binding wins,
matching a Python dict's unique keys). -/
abbrev Row := List (String × String)

/-- Mirrors Python `row.get(field)`: the value bound to `field`, if
any. -/
def Row.get (row : Row) (field : String) : Option String :=
  (List.find? (fun p => p.1 = field) row).map (fun p => p.2)

/-- Mirrors Python `row.get(field, default)`. -/
def Row.getD (row : Row) (field : String) (default : String) : String :=
  (Row.get row field).getD default

/-- `ErrorCheckCSVVisitor.REQUIRED_HEADERS` (`utils/visitor.py`). -/
def REQUIRED_HEADERS : List String :=
  ["error_code", "error_type", "form_name", "packet",
   "var_name", "check_type", "test_name", "short_desc",
   "full_desc", "test_logic", "comp_forms", "comp_vars"]

/-- `ErrorCheckCSVVisitor.ALLOWED_EMPTY_FIELDS` (`utils/visitor.py`). -/
def ALLOWED_EMPTY_FIELDS : List String := ["comp_forms", "comp_vars"]

/-- `ErrorCheckCSVVisitor` (`utils/visitor.py`): holds the owning key
and the append-only list of validated (projected) rows. -/
structure ErrorCheckCSVVisitor where
  key : ErrorCheckKey
  validated_error_checks : List Row
deriving DecidableEq, Repr

/-- `ErrorCheckCSVVisitor.visit_header`: the loop flags every required
header missing from `header`, except that `packet` is tolerated exactly
when the owning key's packet `is None`; the result is true iff no flag
was raised. -/
def ErrorCheckCSVVisitor.visit_header
    (v : ErrorCheckCSVVisitor) (header : List String) : Bool :=
  REQUIRED_HEADERS.all
    (fun h => header.contains h || (h = "packet" && v.key.packet = none))

/-- Validity computation of `ErrorCheckCSVVisitor.visit_row`: `valid`
starts true and each failed check forces it false, so the result is the
conjunction of the four checks, in the source's order.  `if
self.__key.packet:` is Python truthiness — the packet block is skipped
for a `None` packet and for an empty-string packet alike. -/
def visit_row_valid (key : ErrorCheckKey) (row : Row) : Bool :=
  -- `for field, value in row.items(): ...` empty required non-exempt
  let empty_ok := row.all (fun fv =>
    !(fv.2 = "" && !ALLOWED_EMPTY_FIELDS.contains fv.1
        && REQUIRED_HEADERS.contains fv.1))
  -- `row.get('form_name', '') != self.__key.form_name`
  let form_name_ok := Row.getD row "form_name" "" = key.form_name
  let error_code := Row.getD row "error_code" ""
  -- `error_code.startswith(self.__key.form_name)`
  let code_ok := pyStartsWith error_code key.form_name
  -- `if self.__key.packet:` (truthy), then
  -- `if visit_type and visit_type not in error_code` and
  -- `row.get('packet', '') != self.__key.packet`
  let packet_ok :=
    if key.packet.getD "" ≠ "" then
      (match key.get_visit_type with
       | some vt => pySubstr error_code vt
       | none => true)
      && Row.getD row "packet" "" = key.packet.getD ""
    else true
  empty_ok && form_name_ok && code_ok && packet_ok

/-- Projection `{field: row[field] for field in self.REQUIRED_HEADERS
if field in row}` of a valid row (`visit_row`). -/
def project_row (row : Row) : Row :=
  REQUIRED_HEADERS.filterMap
    (fun field => (Row.get row field).map (fun v => (field, v)))

/-- `ErrorCheckCSVVisitor.visit_row`: computes validity, appends the
projected row when valid, and returns the row result together with the
updated visitor. -/
def ErrorCheckCSVVisitor.visit_row
    (v : ErrorCheckCSVVisitor) (row : Row) : Bool × ErrorCheckCSVVisitor :=
  if visit_row_valid v.key row then
    (true, { v with
             validated_error_checks := v.validated_error_checks ++ [project_row row] })
  else (false, v)

/-- Character stream handed to `read_csv`, abstracted at the CSV level:
an empty stream (`read(1024)` returns nothing), a non-empty stream in
which `DictReader` finds no fieldnames, or a header row followed by the
data rows `DictReader` yields.  Structural `csv.Error` failures
mid-stream are outside this model. -/
inductive CSVStream where
  | empty
  | noHeader
  | withHeader (header : List String) (rows : List Row)
deriving DecidableEq, Repr

/-- Observable calls `read_csv` makes on its visitor. -/
inductive VisitEvent where
  | headerCheck (header : List String)
  | rowVisit (row : Row)
deriving DecidableEq, Repr

/-- Result of `read_csv`: the returned boolean, the final visitor
state, and the trace of visitor calls made. -/
structure ReadResult where
  success : Bool
  visitor : ErrorCheckCSVVisitor
  events : List VisitEvent
deriving DecidableEq, Repr

/-- Loop body of `read_csv`: `row_success = visitor.visit_row(record,
...); success = row_success and success`. -/
def read_step (acc : ReadResult) (row : Row) : ReadResult :=
  let r := acc.visitor.visit_row row
  { success := r.1 && acc.success,
    visitor := r.2,
    events := acc.events ++ [VisitEvent.rowVisit row] }

/-- `read_csv` (`utils/visitor.py`): fails on an empty stream or a
missing header row, calls `visit_header` once and stops if it fails,
otherwise folds `visit_row` over every data row. -/
def read_csv (input_file : CSVStream) (visitor : ErrorCheckCSVVisitor) :
    ReadResult :=
  match input_file with
  | .empty => { success := false, visitor := visitor, events := [] }
  | .noHeader => { success := false, visitor := visitor, events := [] }
  | .withHeader header rows =>
    if !visitor.visit_header header then
      { success := false, visitor := visitor,
        events := [VisitEvent.headerCheck header] }
    else
      rows.foldl read_step
        { success := true, visitor := visitor,
          events := [VisitEvent.headerCheck header] }

/-- Outcome of `REDCapErrorChecksImporter.load_error_check_csv`:
`failed` is a `return None` (read failure, empty check list, or
duplicate codes); `keyError` models the uncaught `KeyError` that
`[x['error_code'] for x in error_checks]` would raise if a validated
row lacked `error_code` (unreachable for `DictReader` rows, whose keys
are exactly the fieldnames the header check has approved). -/
inductive LoadResult where
  | keyError
  | failed
  | ok (error_checks : List Row)
deriving DecidableEq, Repr

/-- `REDCapErrorChecksImporter.load_error_check_csv` (`importer.py`):
reads the stream with a fresh visitor bound to `key`, fails on a read
error or an empty result, extracts the `error_code` column, registers
it with the stats (which appends the codes regardless), and rejects the
whole batch when any duplicates were reported. -/
def load_error_check_csv (key : ErrorCheckKey) (stream : CSVStream)
    (stats : ErrorCheckImportStats) : LoadResult × ErrorCheckImportStats :=
  let visitor : ErrorCheckCSVVisitor := { key := key, validated_error_checks := [] }
  let res := read_csv stream visitor
  if !res.success then (.failed, stats)
  else
    let error_checks := res.visitor.validated_error_checks
    if error_checks.isEmpty then (.failed, stats)
    else
      match error_checks.mapM (fun x => Row.get x "error_code") with
      | none => (.keyError, stats)
      | some codes =>
        let r := stats.add_error_codes codes
        if !r.1.isEmpty then (.failed, r.2)
        else (.ok error_checks, r.2)

/-- Listed S3 object as the run sees it: the key from the bucket
listing (`file_metadata.get('Key')`, with the falsy missing/empty case
collapsed to `""`), the CSV content `get_object` would return, and the
behaviour of `import_records` on this file's batch (`none` models a
`REDCapConnectionError`, `some n` a response of `n` imported
records). -/
structure S3File where
  key : String
  stream : CSVStream
  importResult : Option Nat
deriving DecidableEq, Repr

/-- Run configuration of `REDCapErrorChecksImporter` relevant to
`run`. -/
structure Importer where
  modules : List String
  fail_fast : Bool
  dry_run : Bool
deriving DecidableEq, Repr

/-- Observable per-file actions of `run`. -/
inductive RunEvent where
  | loaded (key : String)
  | imported (key : String)
deriving DecidableEq, Repr

/-- How `REDCapErrorChecksImporter.run` terminates.  `parseError` is
the `ValueError` from `create_from_key` propagating out of `run`;
`importError` is the `RuntimeException` raised in `import_to_redcap`;
`loadException` is the `KeyError` path of `load_error_check_csv`;
`earlyHalt` is the fail-fast `return` (a normal return, no exception);
`aggregateFailure` is the final `RuntimeException` listing the failed
files; `success` carries whether the no-codes warning was logged. -/
inductive RunOutcome where
  | parseError (key : String)
  | importError
  | loadException
  | earlyHalt
  | aggregateFailure (files : List String)
  | success (warned : Bool)
deriving DecidableEq, Repr

/-- `REDCapErrorChecksImporter.run` (`importer.py`), from an arbitrary
point of the file loop onwards: `files` are the remaining listed
objects, `stats` the accumulator so far, `trace` the actions already
taken.  Skips keys that are falsy or lack the `.csv` suffix, aborts on
a key-parse failure, applies the module filter, loads each surviving
file (fail-fast returning or recording the failure when the load
fails), imports the batch unless dry-run, and finishes with the
aggregate-failure / success logic after the loop. -/
def run_from (imp : Importer) (files : List S3File)
    (stats : ErrorCheckImportStats) (trace : List RunEvent) :
    RunOutcome × ErrorCheckImportStats × List RunEvent :=
  match files with
  | [] =>
    -- `if self.__stats.failed_files: raise RuntimeException(...)`
    if !stats.failed_files.isEmpty then
      (.aggregateFailure stats.failed_files, stats, trace)
    else
      -- `if not self.__stats.all_error_codes: log.warning(...)`
      (.success stats.all_error_codes.isEmpty, stats, trace)
  | f :: rest =>
    -- `if not key or not key.endswith('.csv'): continue`
    if f.key = "" || !pyEndsWith f.key ".csv" then
      run_from imp rest stats trace
    else
      match ErrorCheckKey.create_from_key f.key with
      | none => (.parseError f.key, stats, trace)
      | some error_key =>
        -- `if self.__modules != ['all'] and error_key.module not in
        -- self.__modules: continue`
        if imp.modules ≠ ["all"] && !imp.modules.contains error_key.module then
          run_from imp rest stats trace
        else
          let trace := trace ++ [RunEvent.loaded f.key]
          let r := load_error_check_csv error_key f.stream stats
          match r.1 with
          | .keyError => (.loadException, r.2, trace)
          | .failed =>
            -- `if not error_checks:` (None here)
            if imp.fail_fast then (.earlyHalt, r.2, trace)
            else run_from imp rest (r.2.add_failed_file f.key) trace
          | .ok error_checks =>
            -- `if not error_checks:` also catches an empty list
            if error_checks.isEmpty then
              if imp.fail_fast then (.earlyHalt, r.2, trace)
              else run_from imp rest (r.2.add_failed_file f.key) trace
            else
              -- `self.import_to_redcap(error_checks)`
              if imp.dry_run then run_from imp rest r.2 trace
              else
                match f.importResult with
                | none => (.importError, r.2, trace)
                | some num_records =>
                  run_from imp rest (r.2.add_to_total_records num_records)
                    (trace ++ [RunEvent.imported f.key])

/-- `run` on a full listing: fresh stats, empty trace. -/
def run (imp : Importer) (files : List S3File) :
    RunOutcome × ErrorCheckImportStats × List RunEvent :=
  run_from imp files ErrorCheckImportStats.init []

/-- Models the process exit status of `bin/entrypoint.py`: the
entrypoint just calls `importer.run()`, so Python exits 0 exactly when
`run` returns normally (success or the fail-fast early return) and
non-zero when an exception propagates. -/
def exit_code : RunOutcome → Nat
  | .success _ => 0
  | .earlyHalt => 0
  | _ => 1

/-! ## Claim theorems -/

/-- C7 counterexample: the claim says a non-null packet that is neither
`I4` nor `F`-initial maps to `ivp`, but for the reachable key
`CSV/MOD/V//form_abc_x.csv` the packet is the non-null empty string and
`get_visit_type` returns `None` (Python `if not self.packet` treats the
empty string like `None`). -/
theorem get_visit_type_empty_packet :
    (ErrorCheckKey.create_from_key "CSV/MOD/V//form_abc_x.csv").map
        (fun k => (k.packet, k.get_visit_type)) = some (some "", none) ∧
    ("" : String) ≠ "I4" ∧ pyStartsWith "" "F" = false := by
  refine ⟨rfl, by decide, rfl⟩

/-- C7 amended: the visit-type derivation is total and deterministic in
the packet — `I4 ↦ i4vp`; any other packet starting with `F` maps to
`fvp`; any other non-null and NON-EMPTY packet maps to `ivp`; a null or
empty packet maps to `None`. -/
theorem get_visit_type_cases (k : ErrorCheckKey) :
    (k.packet = none → k.get_visit_type = none) ∧
    (k.packet = some "" → k.get_visit_type = none) ∧
    (k.packet = some "I4" → k.get_visit_type = some "i4vp") ∧
    (∀ p, k.packet = some p → p ≠ "I4" → pyStartsWith p "F" = true →
        k.get_visit_type = some "fvp") ∧
    (∀ p, k.packet = some p → p ≠ "" → p ≠ "I4" → pyStartsWith p "F" = false →
        k.get_visit_type = some "ivp") := by
  unfold ErrorCheckKey.get_visit_type
  refine ⟨fun h => by rw [h], fun h => by rw [h]; rfl, fun h => by rw [h]; rfl,
    fun p hp h1 h2 => ?_, fun p hp h0 h1 h2 => ?_⟩
  · rw [hp]
    simp only []
    rw [if_neg ?_, if_neg h1, if_pos h2]
    intro he
    rw [he] at h2
    exact absurd h2 (by decide)
  · rw [hp]
    simp only []
    rw [if_neg h0, if_neg h1, h2]
    rfl

/-- Witness for `get_visit_type_cases` at packet `IF`. -/
theorem get_visit_type_cases_witness :
    ({ full_path := "", csv := "CSV", module := "M", form_ver := "1",
       filename := "f", form_name := "x",
       packet := some "IF" } : ErrorCheckKey).get_visit_type = some "ivp" :=
  (get_visit_type_cases _).2.2.2.2 "IF" rfl (by decide) (by decide) rfl

/-- C2 counterexample: on a fresh accumulator,
`add_error_codes(["a", "a"])` reports no duplicate — the loop compares
each code only against the codes accumulated BEFORE this call (the
`extend` runs after the loop), so a code repeated within one call is
not reported — while the claim demands `["a"]`.  Both copies are still
appended to the accumulated collection. -/
theorem add_error_codes_within_call_counterexample :
    (ErrorCheckImportStats.init.add_error_codes ["a", "a"]).1 = [] ∧
    (ErrorCheckImportStats.init.add_error_codes ["a", "a"]).2.all_error_codes
      = ["a", "a"] := ⟨rfl, rfl⟩

/-- C2 amended: `add_error_codes` returns exactly those input codes
(with their input multiplicity) that collide with a code accumulated in
an EARLIER call — within-call repeats are not compared against each
other — and afterwards every input code has been appended to the
accumulated collection, other stats fields untouched. -/
theorem add_error_codes_spec (stats : ErrorCheckImportStats) (codes : List String) :
    (∀ c, c ∈ (stats.add_error_codes codes).1 ↔
        c ∈ codes ∧ c ∈ stats.all_error_codes) ∧
    (∀ c, (stats.add_error_codes codes).1.count c
        = if c ∈ stats.all_error_codes then codes.count c else 0) ∧
    (stats.add_error_codes codes).2.all_error_codes
      = stats.all_error_codes ++ codes ∧
    (stats.add_error_codes codes).2.total_records = stats.total_records ∧
    (stats.add_error_codes codes).2.failed_files = stats.failed_files := by
  unfold ErrorCheckImportStats.add_error_codes
  refine ⟨fun c => ?_, fun c => ?_, rfl, rfl, rfl⟩
  · simp [List.mem_filter]
  · by_cases hmem : c ∈ stats.all_error_codes
    · rw [if_pos hmem, List.count_filter]
      simpa using hmem
    · rw [if_neg hmem, List.count_eq_zero]
      intro hc
      rw [List.mem_filter] at hc
      exact hmem (by simpa using hc.2)

/-- Witness for `add_error_codes_spec`: a concrete collision with a
code from an earlier call. -/
theorem add_error_codes_spec_witness :
    "x" ∈ (({ total_records := 2, all_error_codes := ["x"],
              failed_files := ["f"] } :
        ErrorCheckImportStats).add_error_codes ["x", "y"]).1 :=
  ((add_error_codes_spec
      { total_records := 2, all_error_codes := ["x"], failed_files := ["f"] }
      ["x", "y"]).1 "x").mpr ⟨by decide, by decide⟩

/-- Fully populated row whose `packet` field is `X`, used against a key
whose packet is the empty string. -/
def row_packet_x : Row :=
  [("error_code", "abc-code"), ("error_type", "e"), ("form_name", "abc"),
   ("packet", "X"), ("var_name", "v"), ("check_type", "c"),
   ("test_name", "t"), ("short_desc", "s"), ("full_desc", "f"),
   ("test_logic", "l"), ("comp_forms", "cf"), ("comp_vars", "cv")]

/-- C5 counterexample: the key parsed from `CSV/MOD/V//form_abc_x.csv`
has the non-null packet `""`, and `row_packet_x` carries packet `X ≠
""`, so by the claim `visit_row` must reject the row; the code skips
the whole packet block on a falsy packet (`if self.__key.packet:`) and
accepts it. -/
theorem visit_row_empty_packet_counterexample :
    (ErrorCheckKey.create_from_key "CSV/MOD/V//form_abc_x.csv").map
        (fun k => (k.packet, visit_row_valid k row_packet_x)) = some (some "", true) ∧
    Row.getD row_packet_x "packet" "" = "X" := ⟨rfl, rfl⟩

/-- Element form of the required/empty check of `visit_row`. -/
lemma empty_check_elem_iff (fv : String × String) :
    (!(fv.2 = "" && !ALLOWED_EMPTY_FIELDS.contains fv.1
        && REQUIRED_HEADERS.contains fv.1)) = true
    ↔ (fv.1 ∈ REQUIRED_HEADERS → fv.1 ∉ ALLOWED_EMPTY_FIELDS → fv.2 ≠ "") := by
  by_cases h1 : fv.1 ∈ REQUIRED_HEADERS <;> by_cases h2 : fv.1 ∈ ALLOWED_EMPTY_FIELDS <;>
    by_cases h3 : fv.2 = "" <;> simp [h1, h2, h3]

/-- Propositional form of the packet-consistency block of
`visit_row`. -/
lemma packet_check_iff (key : ErrorCheckKey) (row : Row) :
    ((if key.packet.getD "" ≠ "" then
        (match key.get_visit_type with
         | some vt => pySubstr (Row.getD row "error_code" "") vt
         | none => true)
        && Row.getD row "packet" "" = key.packet.getD ""
      else true) = true)
    ↔ (∀ p, key.packet = some p → p ≠ "" →
        (∀ vt, key.get_visit_type = some vt →
           pySubstr (Row.getD row "error_code" "") vt = true) ∧
        Row.getD row "packet" "" = p) := by
  match hpk : key.packet with
  | none => simp
  | some p =>
    by_cases hne : p = ""
    · subst hne; simp
    · simp only [Option.getD_some, if_pos hne]
      rw [Bool.and_eq_true]
      constructor
      · rintro ⟨h1, h2⟩
        intro p' hp' hne'
        injection hp' with hp'
        subst hp'
        refine ⟨fun vt hvt => ?_, by simpa using h2⟩
        rw [hvt] at h1
        exact h1
      · intro h
        rcases h p rfl hne with ⟨h1, h2⟩
        refine ⟨?_, by simpa using h2⟩
        match hvt : key.get_visit_type with
        | none => rfl
        | some vt => exact h1 vt hvt

/-- C5 amended: `visit_row` accepts a row exactly when every required,
non-exempt field present in the row is non-empty, the row's `form_name`
equals the key's derived form name, the row's `error_code` starts with
the key's form name, and — when the key's packet is non-null and
NON-EMPTY — the `error_code` contains the key's visit-type substring
and the row's `packet` field equals the key's packet exactly. -/
theorem visit_row_valid_iff (key : ErrorCheckKey) (row : Row) :
    visit_row_valid key row = true ↔
      ((∀ fv ∈ row, fv.1 ∈ REQUIRED_HEADERS → fv.1 ∉ ALLOWED_EMPTY_FIELDS → fv.2 ≠ "") ∧
       Row.getD row "form_name" "" = key.form_name ∧
       pyStartsWith (Row.getD row "error_code" "") key.form_name = true ∧
       ∀ p, key.packet = some p → p ≠ "" →
         (∀ vt, key.get_visit_type = some vt →
            pySubstr (Row.getD row "error_code" "") vt = true) ∧
         Row.getD row "packet" "" = p) := by
  unfold visit_row_valid
  rw [Bool.and_eq_true, Bool.and_eq_true, Bool.and_eq_true]
  rw [packet_check_iff key row]
  simp only [List.all_eq_true, empty_check_elem_iff, decide_eq_true_eq, and_assoc]

/-- Key for the valid-row witness scenarios: parsed from the test
fixture key `CSV/dummy_module/3.1/I/form_d1a_ivp_error_checks_mc.csv`. -/
def key_d1a : ErrorCheckKey :=
  { full_path := "CSV/dummy_module/3.1/I/form_d1a_ivp_error_checks_mc.csv",
    csv := "CSV", module := "dummy_module", form_ver := "3.1",
    filename := "form_d1a_ivp_error_checks_mc.csv", form_name := "d1a",
    packet := some "I" }

/-- Valid row fixture (mirrors the repository's own test data). -/
def row_d1a : Row :=
  [("error_code", "d1a-ivp-m-001"), ("error_type", "Error"),
   ("form_name", "d1a"), ("packet", "I"), ("var_name", "FRMDATED1A"),
   ("check_type", "Missingness"), ("test_name", "t"), ("short_desc", "s"),
   ("full_desc", "f"), ("test_logic", "l"), ("comp_forms", ""),
   ("comp_vars", "")]

/-- Witness for `visit_row_valid_iff`: on the concrete `key_d1a` /
`row_d1a` pair the equivalence yields the row's acceptance from the
four checks. -/
theorem visit_row_valid_iff_witness : visit_row_valid key_d1a row_d1a = true :=
  (visit_row_valid_iff key_d1a row_d1a).mpr
    ⟨by decide, by decide, by decide,
     fun p hp hne => by
       injection hp with hp
       subst hp
       refine ⟨fun vt hvt => ?_, by decide⟩
       rw [show key_d1a.get_visit_type = some "ivp" from rfl] at hvt
       injection hvt with hvt
       subst hvt
       decide⟩

/-- Lookup in a projection built over any header list: the projection
binds `f` to exactly what the row binds it to when `f` is listed, and
to nothing otherwise. -/
lemma get_projectOn (l : List String) (row : Row) (f : String) :
    Row.get (l.filterMap (fun g => (Row.get row g).map (fun v => (g, v)))) f
      = if f ∈ l then Row.get row f else none := by
  induction l with
  | nil => simp [Row.get]
  | cons g t ih =>
    by_cases hfg : f = g
    · subst hfg
      cases hg : Row.get row f with
      | none =>
        simp only [List.filterMap_cons, hg, Option.map_none']
        rw [ih, if_pos (List.mem_cons_self _ _)]
        by_cases hft : f ∈ t <;> simp [hft, hg]
      | some v =>
        simp only [List.filterMap_cons, hg, Option.map_some']
        simp [Row.get, List.find?]
    · cases hg : Row.get row g with
      | none =>
        simp only [List.filterMap_cons, hg, Option.map_none']
        rw [ih]
        by_cases hft : f ∈ t <;> simp [hft, hfg]
      | some v =>
        simp only [List.filterMap_cons, hg, Option.map_some']
        have : Row.get ((g, v) :: t.filterMap
            (fun g => (Row.get row g).map (fun v => (g, v)))) f
            = Row.get (t.filterMap (fun g => (Row.get row g).map (fun v => (g, v)))) f := by
          simp [Row.get, List.find?, hfg, Ne.symm hfg]
        rw [this, ih]
        by_cases hft : f ∈ t <;> simp [hft, hfg]

/-- Keys of a projection over a header list whose every field the row
binds: exactly that list, in order. -/
lemma keys_projectOn (l : List String) (row : Row)
    (h : ∀ f ∈ l, (Row.get row f).isSome = true) :
    (l.filterMap (fun g => (Row.get row g).map (fun v => (g, v)))).map Prod.fst
      = l := by
  induction l with
  | nil => rfl
  | cons g t ih =>
    have hg := h g (List.mem_cons_self _ _)
    cases hgv : Row.get row g with
    | none => rw [hgv] at hg; simp at hg
    | some v =>
      simp only [List.filterMap_cons, hgv, Option.map_some', List.map_cons]
      rw [ih (fun f hf => h f (List.mem_cons_of_mem _ hf))]

/-- C8: a validated row holding every required field is appended as a
projected record containing exactly the required field names, bound to
the row's values, with every other (extra) field dropped. -/
theorem visit_row_projection (v : ErrorCheckCSVVisitor) (row : Row)
    (hall : ∀ f ∈ REQUIRED_HEADERS, (Row.get row f).isSome = true)
    (hvalid : visit_row_valid v.key row = true) :
    (v.visit_row row).2.validated_error_checks
      = v.validated_error_checks ++ [project_row row] ∧
    (project_row row).map Prod.fst = REQUIRED_HEADERS ∧
    (∀ f ∈ REQUIRED_HEADERS, Row.get (project_row row) f = Row.get row f) ∧
    (∀ f, f ∉ REQUIRED_HEADERS → Row.get (project_row row) f = none) := by
  refine ⟨?_, keys_projectOn _ _ hall, fun f hf => ?_, fun f hf => ?_⟩
  · unfold ErrorCheckCSVVisitor.visit_row
    rw [if_pos hvalid]
  · rw [project_row, get_projectOn, if_pos hf]
  · rw [project_row, get_projectOn, if_neg hf]

/-- Witness for `visit_row_projection`: the d1a fixture row extended
with an unrelated extra column `error_no`, which the projection
drops. -/
theorem visit_row_projection_witness :
    (({ key := key_d1a, validated_error_checks := [] } :
        ErrorCheckCSVVisitor).visit_row (row_d1a ++ [("error_no", "001")])).2.validated_error_checks
      = [project_row (row_d1a ++ [("error_no", "001")])] ∧
    Row.get (project_row (row_d1a ++ [("error_no", "001")])) "error_no" = none :=
  ⟨(visit_row_projection { key := key_d1a, validated_error_checks := [] }
      (row_d1a ++ [("error_no", "001")]) (by decide) (by decide)).1,
   (visit_row_projection { key := key_d1a, validated_error_checks := [] }
      (row_d1a ++ [("error_no", "001")]) (by decide) (by decide)).2.2.2 "error_no"
      (by decide)⟩

/-- The row result of `visit_row` is its validity and the visitor keeps
its key. -/
lemma visit_row_parts (v : ErrorCheckCSVVisitor) (row : Row) :
    (v.visit_row row).1 = visit_row_valid v.key row ∧
    (v.visit_row row).2.key = v.key := by
  unfold ErrorCheckCSVVisitor.visit_row
  split
  · rename_i h
    exact ⟨h.symm, rfl⟩
  · rename_i h
    exact ⟨(Bool.not_eq_true _ ▸ by simpa using h : _ = false).symm, rfl⟩

/-- Folding the `read_csv` loop body over the rows: the accumulated
boolean is the conjunction of the incoming one with every row's
validity, every row is visited (in order), and the key never
changes. -/
lemma read_fold_spec (rows : List Row) (acc : ReadResult) :
    (rows.foldl read_step acc).success
        = (acc.success && rows.all (fun r => visit_row_valid acc.visitor.key r)) ∧
    (rows.foldl read_step acc).events
        = acc.events ++ rows.map VisitEvent.rowVisit ∧
    (rows.foldl read_step acc).visitor.key = acc.visitor.key := by
  induction rows generalizing acc with
  | nil => simp
  | cons r rs ih =>
    obtain ⟨h1, h2, h3⟩ := ih (read_step acc r)
    obtain ⟨hv1, hv2⟩ := visit_row_parts acc.visitor r
    have hs : (read_step acc r).success = (visit_row_valid acc.visitor.key r && acc.success) := by
      have hd : (read_step acc r).success = ((acc.visitor.visit_row r).1 && acc.success) := rfl
      rw [hd, hv1]
    have hk : (read_step acc r).visitor.key = acc.visitor.key := hv2
    have he : (read_step acc r).events = acc.events ++ [VisitEvent.rowVisit r] := rfl
    refine ⟨?_, ?_, ?_⟩
    · rw [List.foldl_cons, h1, hs, hk, List.all_cons]
      cases acc.success <;> cases visit_row_valid acc.visitor.key r <;>
        cases rs.all (fun x => visit_row_valid acc.visitor.key x) <;> rfl
    · rw [List.foldl_cons, h2, he]
      simp
    · rw [List.foldl_cons, h3, hk]

/-- C4: `read_csv` returns false on an empty stream or one without a
header row (without consulting the visitor); with a header it checks
the header exactly once, aborting with false and visiting no row when
that check fails; otherwise it visits every data row in order, never
stopping at a failed row, and returns the conjunction of all row
results. -/
theorem read_csv_spec (v : ErrorCheckCSVVisitor) :
    read_csv .empty v = { success := false, visitor := v, events := [] } ∧
    read_csv .noHeader v = { success := false, visitor := v, events := [] } ∧
    (∀ header rows, v.visit_header header = false →
        read_csv (.withHeader header rows) v
          = { success := false, visitor := v,
              events := [VisitEvent.headerCheck header] }) ∧
    (∀ header rows, v.visit_header header = true →
        (read_csv (.withHeader header rows) v).events
            = VisitEvent.headerCheck header :: rows.map VisitEvent.rowVisit ∧
        (read_csv (.withHeader header rows) v).success
            = rows.all (fun r => visit_row_valid v.key r)) := by
  refine ⟨rfl, rfl, fun header rows h => ?_, fun header rows h => ?_⟩
  · simp [read_csv, h]
  · obtain ⟨h1, h2, _⟩ := read_fold_spec rows
      { success := true, visitor := v, events := [VisitEvent.headerCheck header] }
    simp only [read_csv, h, Bool.not_true, Bool.false_eq_true, if_false, h1, h2]
    exact ⟨rfl, by simp⟩

/-- Witness for `read_csv_spec`: a concrete two-row file with one bad
row — both rows are visited, the result is false. -/
theorem read_csv_spec_witness :
    (read_csv (.withHeader (REQUIRED_HEADERS ++ ["error_no"])
          [row_d1a, row_packet_x])
        { key := key_d1a, validated_error_checks := [] }).events
      = VisitEvent.headerCheck (REQUIRED_HEADERS ++ ["error_no"])
          :: [VisitEvent.rowVisit row_d1a, VisitEvent.rowVisit row_packet_x] ∧
    (read_csv (.withHeader (REQUIRED_HEADERS ++ ["error_no"])
          [row_d1a, row_packet_x])
        { key := key_d1a, validated_error_checks := [] }).success = false :=
  ((read_csv_spec { key := key_d1a, validated_error_checks := [] }).2.2.2
      (REQUIRED_HEADERS ++ ["error_no"]) [row_d1a, row_packet_x] (by decide)).imp
    (fun h => h) (fun h => h.trans (by decide))

/-- C10: when `load_error_check_csv` rejects a file's batch because of
cross-file duplicate error codes, every error code of the file
(duplicated or not) has already been appended to the accumulator's code
collection, so it participates in duplicate detection for every later
file of the run. -/
theorem load_duplicates_recorded (key : ErrorCheckKey) (stream : CSVStream)
    (stats : ErrorCheckImportStats) (codes : List String)
    (hread : (read_csv stream { key := key, validated_error_checks := [] }).success = true)
    (hne : (read_csv stream { key := key, validated_error_checks := [] }).visitor.validated_error_checks.isEmpty = false)
    (hcodes : ((read_csv stream { key := key, validated_error_checks := [] }).visitor.validated_error_checks).mapM
          (fun x => Row.get x "error_code") = some codes)
    (hdup : (codes.filter
        (fun c => stats.all_error_codes.contains c)).isEmpty = false) :
    load_error_check_csv key stream stats
      = (.failed, { stats with all_error_codes := stats.all_error_codes ++ codes }) ∧
    ∀ c ∈ codes, c ∈ (load_error_check_csv key stream stats).2.all_error_codes := by
  have hmain : load_error_check_csv key stream stats
      = (.failed, { stats with all_error_codes := stats.all_error_codes ++ codes }) := by
    unfold load_error_check_csv
    dsimp only
    rw [hread]
    simp only [Bool.not_true, Bool.false_eq_true, if_false]
    rw [hne]
    simp only [Bool.false_eq_true, if_false]
    rw [hcodes]
    unfold ErrorCheckImportStats.add_error_codes
    dsimp only
    rw [hdup]
    simp only [Bool.not_false, if_true]
  refine ⟨hmain, fun c hc => ?_⟩
  rw [hmain]
  exact List.mem_append_right _ hc

/-- Witness for `load_duplicates_recorded`: a concrete one-row file
whose single code already sits in the accumulator; the batch is
rejected, yet the code is appended a second time. -/
theorem load_duplicates_recorded_witness :
    load_error_check_csv key_d1a
        (.withHeader (REQUIRED_HEADERS ++ ["error_no"]) [row_d1a])
        { total_records := 1, all_error_codes := ["d1a-ivp-m-001"],
          failed_files := [] }
      = (.failed, { total_records := 1,
                    all_error_codes := ["d1a-ivp-m-001", "d1a-ivp-m-001"],
                    failed_files := [] }) :=
  (load_duplicates_recorded key_d1a
      (.withHeader (REQUIRED_HEADERS ++ ["error_no"]) [row_d1a])
      { total_records := 1, all_error_codes := ["d1a-ivp-m-001"],
        failed_files := [] }
      ["d1a-ivp-m-001"] (by decide) (by decide) (by decide) (by decide)).1

/-- Stats bookkeeping of `load_error_check_csv`: the failed-files list
and the total-record counter are never touched by the loader. -/
lemma load_preserves_failed_files (key : ErrorCheckKey) (stream : CSVStream)
    (stats : ErrorCheckImportStats) :
    (load_error_check_csv key stream stats).2.failed_files = stats.failed_files := by
  unfold load_error_check_csv ErrorCheckImportStats.add_error_codes
  dsimp only
  split
  · rfl
  · split
    · rfl
    · split
      · rfl
      · split <;> rfl

/-- C3: with fail-fast configured, the first file whose load fails
(validation, empty batch, or duplicate rejection) makes `run` return
normally at once — outcome `earlyHalt`, no exception — without touching
any remaining listed file (the trace gains only this file's load), with
the triggering file kept OUT of the failed-files aggregate, and the
process exit status on this path is zero. -/
theorem failfast_halts_run (imp : Importer) (f : S3File) (rest : List S3File)
    (stats : ErrorCheckImportStats) (trace : List RunEvent) (k : ErrorCheckKey)
    (hff : imp.fail_fast = true)
    (hk : f.key ≠ "")
    (hcsv : pyEndsWith f.key ".csv" = true)
    (hparse : ErrorCheckKey.create_from_key f.key = some k)
    (hmod : imp.modules = ["all"] ∨ imp.modules.contains k.module = true)
    (hload : (load_error_check_csv k f.stream stats).1 = .failed) :
    run_from imp (f :: rest) stats trace
      = (.earlyHalt, (load_error_check_csv k f.stream stats).2,
         trace ++ [RunEvent.loaded f.key]) ∧
    (run_from imp (f :: rest) stats trace).2.1.failed_files = stats.failed_files ∧
    exit_code .earlyHalt = 0 := by
  have hmain : run_from imp (f :: rest) stats trace
      = (.earlyHalt, (load_error_check_csv k f.stream stats).2,
         trace ++ [RunEvent.loaded f.key]) := by
    unfold run_from
    have h1 : (decide (f.key = "") || !pyEndsWith f.key ".csv") = false := by
      simp [hk, hcsv]
    rw [h1]
    simp only [Bool.false_eq_true, if_false]
    rw [hparse]
    have hmodb : (decide (imp.modules ≠ ["all"]) && !imp.modules.contains k.module) = false := by
      rcases hmod with h | h
      · simp [h]
      · have hm : k.module ∈ imp.modules := by simpa using h
        simp [hm]
    dsimp only
    rw [hmodb]
    simp only [Bool.false_eq_true, if_false]
    rw [hload]
    dsimp only
    rw [hff]
    simp
  refine ⟨hmain, ?_, rfl⟩
  rw [hmain]
  exact load_preserves_failed_files k f.stream stats

/-- Witness for `failfast_halts_run`: a fail-fast run whose first file
is an empty CSV halts with exit status 0 and an empty failure list,
leaving a second listed file untouched. -/
theorem failfast_halts_run_witness :
    run { modules := ["all"], fail_fast := true, dry_run := false }
        [{ key := "CSV/dummy_module/3.1/I/form_d1a_ivp_error_checks_mc.csv",
           stream := .empty, importResult := none },
         { key := "CSV/dummy_module/3.1/I/form_d1a_ivp_error_checks_mc.csv",
           stream := .withHeader REQUIRED_HEADERS [row_d1a], importResult := some 1 }]
      = (.earlyHalt, ErrorCheckImportStats.init,
         [RunEvent.loaded "CSV/dummy_module/3.1/I/form_d1a_ivp_error_checks_mc.csv"]) :=
  (failfast_halts_run { modules := ["all"], fail_fast := true, dry_run := false }
      { key := "CSV/dummy_module/3.1/I/form_d1a_ivp_error_checks_mc.csv",
        stream := .empty, importResult := none }
      [{ key := "CSV/dummy_module/3.1/I/form_d1a_ivp_error_checks_mc.csv",
         stream := .withHeader REQUIRED_HEADERS [row_d1a], importResult := some 1 }]
      ErrorCheckImportStats.init []
      (key_d1a) rfl (by decide) (by decide) (by decide) (Or.inl rfl) (by decide)).1

/-- Listed file whose key ends in `.csv` but has only two path
segments, so `create_from_key` raises. -/
def bad_key_file : S3File :=
  { key := "CSV/bad.csv", stream := .empty, importResult := none }

/-- Perfectly processable file listed right after the malformed one. -/
def good_key_file : S3File :=
  { key := "CSV/dummy_module/3.1/I/form_d1a_ivp_error_checks_mc.csv",
    stream := .withHeader (REQUIRED_HEADERS ++ ["error_no"]) [row_d1a],
    importResult := some 1 }

/-- C1 counterexample: with the malformed key `CSV/bad.csv` listed
first, `run` ends in the propagated parse error with an empty trace —
the following file, which a solo run loads and imports, is never
touched — contradicting the claim that a key-parse failure only skips
that single file and the run continues. -/
theorem parse_error_counterexample :
    run { modules := ["all"], fail_fast := false, dry_run := false }
        [bad_key_file, good_key_file]
      = (.parseError "CSV/bad.csv", ErrorCheckImportStats.init, []) ∧
    (run { modules := ["all"], fail_fast := false, dry_run := false }
        [good_key_file]).2.2
      = [RunEvent.loaded "CSV/dummy_module/3.1/I/form_d1a_ivp_error_checks_mc.csv",
         RunEvent.imported "CSV/dummy_module/3.1/I/form_d1a_ivp_error_checks_mc.csv"] :=
  ⟨rfl, rfl⟩

/-- C1 amended: a key-parse failure on a discovered `.csv` key is fatal
to the whole run — the `ValueError` propagates out of `run` untouched
(there is no per-file recovery), the accumulator and trace are left as
they were, no remaining listed file is processed, and the process exits
non-zero. -/
theorem parse_error_aborts_run (imp : Importer) (f : S3File) (rest : List S3File)
    (stats : ErrorCheckImportStats) (trace : List RunEvent)
    (hk : f.key ≠ "")
    (hcsv : pyEndsWith f.key ".csv" = true)
    (hparse : ErrorCheckKey.create_from_key f.key = none) :
    run_from imp (f :: rest) stats trace = (.parseError f.key, stats, trace) ∧
    exit_code (.parseError f.key) = 1 := by
  refine ⟨?_, rfl⟩
  unfold run_from
  have h1 : (decide (f.key = "") || !pyEndsWith f.key ".csv") = false := by
    simp [hk, hcsv]
  rw [h1]
  simp only [Bool.false_eq_true, if_false]
  rw [hparse]

/-- Witness for `parse_error_aborts_run` at the concrete malformed
key. -/
theorem parse_error_aborts_run_witness :
    run_from { modules := ["all"], fail_fast := false, dry_run := false }
        [bad_key_file, good_key_file] ErrorCheckImportStats.init []
      = (.parseError "CSV/bad.csv", ErrorCheckImportStats.init, []) :=
  (parse_error_aborts_run { modules := ["all"], fail_fast := false, dry_run := false }
      bad_key_file [good_key_file] ErrorCheckImportStats.init []
      (by decide) (by decide) (by decide)).1

/-- C9: whenever `run` completes the whole listing without aborting, it
raises the aggregate failure exactly when the accumulator recorded
failed files — and the report lists precisely the accumulated
failed-file list — and otherwise returns success, warning exactly when
no error code was ever seen. -/
theorem run_completion_spec (imp : Importer) (files : List S3File)
    (stats : ErrorCheckImportStats) (trace : List RunEvent) :
    (∀ fs s t, run_from imp files stats trace = (.aggregateFailure fs, s, t) →
        fs = s.failed_files ∧ fs ≠ []) ∧
    (∀ w s t, run_from imp files stats trace = (.success w, s, t) →
        s.failed_files = [] ∧ w = s.all_error_codes.isEmpty) := by
  induction files generalizing stats trace with
  | nil =>
    constructor
    · intro fs s t h
      unfold run_from at h
      split at h
      · rename_i hc
        simp only [Prod.mk.injEq, RunOutcome.aggregateFailure.injEq] at h
        obtain ⟨h1, h2, h3⟩ := h
        subst h2
        refine ⟨h1.symm, ?_⟩
        subst h1
        intro hnil
        rw [hnil] at hc
        simp at hc
      · simp at h
    · intro w s t h
      unfold run_from at h
      split at h
      · simp at h
      · rename_i hc
        simp only [Prod.mk.injEq, RunOutcome.success.injEq] at h
        obtain ⟨h1, h2, h3⟩ := h
        subst h2
        simp only [Bool.not_eq_true', Bool.not_eq_false] at hc
        exact ⟨List.isEmpty_iff.mp hc, h1.symm⟩
  | cons f rest ih =>
    constructor
    · intro fs s t h
      rw [run_from] at h
      dsimp only at h
      repeat' split at h
      all_goals first
        | exact (ih _ _).1 fs s t h
        | simp at h
    · intro w s t h
      rw [run_from] at h
      dsimp only at h
      repeat' split at h
      all_goals first
        | exact (ih _ _).2 w s t h
        | simp at h

/-- Accumulator state after the solo successful run on
`good_key_file`. -/
def stats_after_good : ErrorCheckImportStats :=
  { total_records := 1, all_error_codes := ["d1a-ivp-m-001"], failed_files := [] }

/-- Witness for `run_completion_spec`: a completed one-file run ends in
success with no warning (its one code was seen) and no failed files. -/
theorem run_completion_spec_witness :
    stats_after_good.failed_files = [] ∧
    false = stats_after_good.all_error_codes.isEmpty :=
  (run_completion_spec { modules := ["all"], fail_fast := false, dry_run := false }
      [good_key_file] ErrorCheckImportStats.init []).2 false
    stats_after_good
    [RunEvent.loaded "CSV/dummy_module/3.1/I/form_d1a_ivp_error_checks_mc.csv",
     RunEvent.imported "CSV/dummy_module/3.1/I/form_d1a_ivp_error_checks_mc.csv"]
    rfl

/-- C6: `create_from_key` succeeds exactly on the two valid shapes.
On a 5-segment key headed by the namespace marker whose filename has a
second underscore-delimited token, it returns the key with module, form
version, packet and filename taken literally from the 2nd-5th segments
and the form name from that token (with the `header` sentinel
substituted by `<module-lowercased>_header`); on a 4-segment key headed
by the marker with the `ENROLL` module, packet is absent and the form
name is the fixed sentinel `enrl`; it fails whenever the first segment
is not the marker or the segment count is neither 4 nor 5; and any
success is of one of those two shapes. -/
theorem create_from_key_spec (key : String) :
    (∀ c m v p f t0 t1 rest,
        pySplit key '/' = [c, m, v, p, f] → c = "CSV" →
        pySplit f '_' = t0 :: t1 :: rest →
        ErrorCheckKey.create_from_key key
          = some { full_path := key, csv := c, module := m, form_ver := v,
                   packet := some p, filename := f,
                   form_name := if t1 = "header" then pyLower m ++ "_header" else t1 }) ∧
    (∀ c m v f, pySplit key '/' = [c, m, v, f] → c = "CSV" → m = "ENROLL" →
        ErrorCheckKey.create_from_key key
          = some { full_path := key, csv := c, module := m, form_ver := v,
                   packet := none, filename := f, form_name := "enrl" }) ∧
    ((pySplit key '/').headD "" ≠ "CSV" → ErrorCheckKey.create_from_key key = none) ∧
    ((pySplit key '/').length ≠ 4 → (pySplit key '/').length ≠ 5 →
        ErrorCheckKey.create_from_key key = none) ∧
    (∀ k, ErrorCheckKey.create_from_key key = some k →
        ((pySplit key '/').length = 5 ∧ (pySplit key '/').headD "" = "CSV" ∧
            2 ≤ (pySplit k.filename '_').length) ∨
        ((pySplit key '/').length = 4 ∧ (pySplit key '/').headD "" = "CSV" ∧
            k.module = "ENROLL" ∧ k.packet = none)) := by
  refine ⟨?_, ?_, ?_, ?_, ?_⟩
  · intro c m v p f t0 t1 rest h hc hf
    subst hc
    unfold ErrorCheckKey.create_from_key
    dsimp only
    rw [h, if_neg (by simp)]
    dsimp only
    rw [hf]
  · intro c m v f h hc hm
    subst hc
    subst hm
    unfold ErrorCheckKey.create_from_key
    dsimp only
    rw [h, if_neg (by simp)]
    dsimp only
    rw [if_pos rfl]
  · intro h
    unfold ErrorCheckKey.create_from_key
    dsimp only
    rw [if_pos h]
  · intro h4 h5
    unfold ErrorCheckKey.create_from_key
    dsimp only
    split
    · rfl
    · rcases hps : pySplit key '/' with _ | ⟨a, _ | ⟨b, _ | ⟨c1, _ | ⟨d, _ | ⟨e, _ | ⟨g, tl⟩⟩⟩⟩⟩⟩
      · rfl
      · rfl
      · rfl
      · rfl
      · rw [hps] at h4; simp at h4
      · rw [hps] at h5; simp at h5
      · rfl
  · intro k hk
    unfold ErrorCheckKey.create_from_key at hk
    dsimp only at hk
    split at hk
    · cases hk
    · rename_i hcsv
      rcases hps : pySplit key '/' with _ | ⟨a, _ | ⟨b, _ | ⟨c1, _ | ⟨d, _ | ⟨e, _ | ⟨g, tl⟩⟩⟩⟩⟩⟩ <;>
        rw [hps] at hk hcsv
      · cases hk
      · cases hk
      · cases hk
      · cases hk
      · -- 4 segments
        dsimp only at hk
        split at hk
        · rename_i hm
          injection hk with hk
          subst hk
          right
          simp only [List.headD_cons, not_not] at hcsv
          exact ⟨rfl, by simpa using hcsv, hm, rfl⟩
        · cases hk
      · -- 5 segments
        dsimp only at hk
        rcases hfs : pySplit e '_' with _ | ⟨x, _ | ⟨y, tl2⟩⟩ <;> rw [hfs] at hk
        · cases hk
        · cases hk
        · injection hk with hk
          subst hk
          left
          simp only [List.headD_cons, not_not] at hcsv
          refine ⟨rfl, by simpa using hcsv, ?_⟩
          show 2 ≤ (pySplit e '_').length
          rw [hfs]
          simp
      · cases hk

/-- Witness for `create_from_key_spec`: the header-substitution
scenario key, whose form name becomes `uds_header`. -/
theorem create_from_key_spec_witness :
    ErrorCheckKey.create_from_key "CSV/UDS/4.0/F/form_header_fvp_error_checks_mc.csv"
      = some { full_path := "CSV/UDS/4.0/F/form_header_fvp_error_checks_mc.csv",
               csv := "CSV", module := "UDS", form_ver := "4.0",
               packet := some "F",
               filename := "form_header_fvp_error_checks_mc.csv",
               form_name := "uds_header" } :=
  (create_from_key_spec "CSV/UDS/4.0/F/form_header_fvp_error_checks_mc.csv").1
    "CSV" "UDS" "4.0" "F" "form_header_fvp_error_checks_mc.csv"
    "form" "header" ["fvp", "error", "checks", "mc.csv"]
    (by decide) rfl (by decide)

end RedcapEC
